import Mathlib

/- Verification of src/packages/server/index.ts: the streaming multi-provider
completion relay. Pure data and request construction are embedded directly;
the network side of the OpenAI client is modelled as an explicit transport
function, and the async generators become functions from the transport outcome
to the list of yielded fragments. -/

/-- A chat message sent to an upstream provider: a role tag and its text
content, mirroring the shape of ChatCompletionMessageParam used by the server. -/
structure ChatMessage where
  role : String
  content : String
deriving DecidableEq

/-- The stop field of CompletionParams: the TypeScript type is a string or an
array of strings, modelled as a sum. -/
inductive StopSpec where
  | str : String → StopSpec
  | strList : List String → StopSpec
deriving DecidableEq

/-- The CompletionParams interface of the server source: every field is
optional, so each is an Option here; an absent field and an undefined field
coincide in this model. -/
structure CompletionParams where
  top_p : Option ℚ
  max_tokens : Option ℕ
  stop : Option StopSpec
  temperature : Option ℚ
deriving DecidableEq

/-- The DEFAULT_PARAMS constant of the server source. -/
def DEFAULT_PARAMS : CompletionParams :=
  { top_p := some 1
    max_tokens := some 512
    stop := some (StopSpec.str "\n")
    temperature := some (7/10) }

/-- Static configuration held by one OpenAI client instance: the API key read
from the process environment (hence optional) and the base URL. -/
structure ClientConfig where
  apiKey : Option String
  baseURL : String
deriving DecidableEq

/-- The deepseekClient constant of the source, parameterized by the process
environment from which the API key is read. -/
def deepseekClient (env : String → Option String) : ClientConfig :=
  { apiKey := env "DEEPSEEK_API_KEY", baseURL := "https://api.deepseek.com" }

/-- The deepinfraClient constant of the source, parameterized by the process
environment from which the API key is read. -/
def deepinfraClient (env : String → Option String) : ClientConfig :=
  { apiKey := env "DEEPINFRA_API_KEY", baseURL := "https://api.deepinfra.com/v1/openai" }

/-- The delta field of one streaming chunk choice; its content may be absent. -/
structure ChunkDelta where
  content : Option String
deriving DecidableEq

/-- One choice in a streaming chunk; the delta itself may be absent, which the
source guards with optional chaining. -/
structure ChunkChoice where
  delta : Option ChunkDelta
deriving DecidableEq

/-- One upstream streaming chunk: a list of choices, possibly empty, which the
source guards by indexing choices with the optional-chaining operator. -/
structure ChatCompletionChunk where
  choices : List ChunkChoice
deriving DecidableEq

/-- The optional chain over chunk.choices, first element, delta, content, as
written in the source before the fallback to the empty string: some s when
every step of the chain is present, none otherwise. -/
def contentOpt (chunk : ChatCompletionChunk) : Option String :=
  (chunk.choices.head?.bind fun choice => choice.delta).bind fun d => d.content

/-- The full yielded expression of the source generators, the optional chain
followed by the JavaScript or-operator fallback to the empty string: a present
string is returned as is (a present empty string is falsy and also produces
the empty string, which agrees with returning it unchanged), an absent chain
produces the empty string. -/
def chunkContent (chunk : ChatCompletionChunk) : String :=
  (contentOpt chunk).getD ""

/-- The request object passed to the create call of the chat completions API:
model, message sequence, the stream flag, and the four CompletionParams fields
spread into the object. -/
structure ChatCompletionRequest where
  model : String
  messages : List ChatMessage
  stream : Bool
  top_p : Option ℚ
  max_tokens : Option ℕ
  stop : Option StopSpec
  temperature : Option ℚ
deriving DecidableEq

/-- Failure of the awaited create call: the transport could not establish the
stream. The specification names this classification ProviderUnavailable. -/
inductive ProviderError where
  | ProviderUnavailable : ProviderError
deriving DecidableEq

/-- The request literal built inside createDeepSeekCompletion. JavaScript
default parameters substitute DEFAULT_PARAMS only when the params argument is
absent and the provider default model only when the model argument is absent;
the system prompt is prepended to the caller messages; the spread of params
carries exactly its four optional fields. -/
def deepSeekRequest (systemPrompt : String) (messages : List ChatMessage)
    (params : Option CompletionParams) (model : Option String) :
    ChatCompletionRequest :=
  let p := params.getD DEFAULT_PARAMS
  { model := model.getD "deepseek-chat"
    messages := { role := "system", content := systemPrompt } :: messages
    stream := true
    top_p := p.top_p
    max_tokens := p.max_tokens
    stop := p.stop
    temperature := p.temperature }

/-- The request literal built inside createDeepInfraCompletion; identical to
the DeepSeek one except for the provider default model name. -/
def deepInfraRequest (systemPrompt : String) (messages : List ChatMessage)
    (params : Option CompletionParams) (model : Option String) :
    ChatCompletionRequest :=
  let p := params.getD DEFAULT_PARAMS
  { model := model.getD "google/gemma-2-9b-it"
    messages := { role := "system", content := systemPrompt } :: messages
    stream := true
    top_p := p.top_p
    max_tokens := p.max_tokens
    stop := p.stop
    temperature := p.temperature }

/-- A transport function standing for the network side of the create call:
given the client configuration and the request, it either rejects (the awaited
promise throws, which the generator does not catch) or delivers the finite
chunk sequence that the for-await loop then consumes. -/
def Transport : Type :=
  ClientConfig → ChatCompletionRequest → Except ProviderError (List ChatCompletionChunk)

/-- The async generator createDeepSeekCompletion: awaits the create call on the
DeepSeek client (a rejection propagates to the caller uncaught) and then yields
the chunk content fallback expression for every chunk, in arrival order. -/
def createDeepSeekCompletion (transport : Transport) (env : String → Option String)
    (systemPrompt : String) (messages : List ChatMessage)
    (params : Option CompletionParams) (model : Option String) :
    Except ProviderError (List String) :=
  match transport (deepseekClient env) (deepSeekRequest systemPrompt messages params model) with
  | Except.error e => Except.error e
  | Except.ok stream => Except.ok (stream.map chunkContent)

/-- The async generator createDeepInfraCompletion: awaits the create call on
the DeepInfra client (a rejection propagates to the caller uncaught) and then
yields the chunk content fallback expression for every chunk, in arrival
order. -/
def createDeepInfraCompletion (transport : Transport) (env : String → Option String)
    (systemPrompt : String) (messages : List ChatMessage)
    (params : Option CompletionParams) (model : Option String) :
    Except ProviderError (List String) :=
  match transport (deepinfraClient env) (deepInfraRequest systemPrompt messages params model) with
  | Except.error e => Except.error e
  | Except.ok stream => Except.ok (stream.map chunkContent)

/-- Inbound socket events the connection handler of the source can receive:
the three event names it registers handlers for, plus a catch-all for any
other event name, for which socket.io invokes no handler at all. -/
inductive SocketEvent where
  | hello (text : String)
  | disconnect (reason : String)
  | socketFault (message : String)
  | other (eventName : String)
deriving DecidableEq

/-- The connection handler of the source, modelled as the list of
acknowledgement-callback invocations it performs for one inbound event: the
hello handler invokes its callback exactly once with the template string that
concatenates hello, a space, and the text; the disconnect and error handlers
only log to the console; an unregistered event name produces nothing. -/
def handleSocketEvent : SocketEvent → List String
  | SocketEvent.hello text => ["hello " ++ text]
  | SocketEvent.disconnect _ => []
  | SocketEvent.socketFault _ => []
  | SocketEvent.other _ => []

/-- Modelled from the spec: the error classifications of the error-handling
design that a client can receive inside a terminal completion-error event. The
Session Relay that would produce them is missing from src (the connection
handler there registers no completion-request handler), so this taxonomy is
taken from the words of the specification. -/
inductive RelayError where
  | ProviderUnavailable : RelayError
  | StreamInterrupted : RelayError
deriving DecidableEq

/-- Modelled from the spec: the Relay Session state enum, Idle then Streaming
then Closed. The Session Relay is missing from src. -/
inductive SessionState where
  | Idle : SessionState
  | Streaming : SessionState
  | Closed : SessionState
deriving DecidableEq

/-- Modelled from the spec: the events the Session Relay reacts to, namely an
inbound completion request, the arrival of one normalized fragment from the
upstream stream, normal upstream exhaustion, upstream failure, and client
disconnect. The Session Relay is missing from src. -/
inductive RelayEvent where
  | request : RelayEvent
  | upstreamFragment : String → RelayEvent
  | upstreamEnd : RelayEvent
  | upstreamError : RelayError → RelayEvent
  | disconnect : RelayEvent
deriving DecidableEq

/-- Modelled from the spec: the outbound events the Session Relay emits to its
client, namely fragment events, the completion-end terminal, the
completion-error terminal, and the SessionBusy rejection. -/
inductive RelayOutput where
  | fragment : String → RelayOutput
  | completionEnd : RelayOutput
  | completionError : RelayError → RelayOutput
  | sessionBusy : RelayOutput
deriving DecidableEq

/-- Modelled from the spec: one transition of the Session Relay state machine.
Idle waits for a request; Streaming forwards each fragment as produced,
rejects a second request with SessionBusy without disturbing the stream,
closes with completion-end on exhaustion, closes with completion-error on
upstream failure, and closes silently on disconnect; Closed is terminal for
the stream and emits nothing further. -/
def relayStep : SessionState → RelayEvent → SessionState × List RelayOutput
  | SessionState.Idle, RelayEvent.request => (SessionState.Streaming, [])
  | SessionState.Idle, RelayEvent.disconnect => (SessionState.Closed, [])
  | SessionState.Idle, _ => (SessionState.Idle, [])
  | SessionState.Streaming, RelayEvent.request =>
      (SessionState.Streaming, [RelayOutput.sessionBusy])
  | SessionState.Streaming, RelayEvent.upstreamFragment s =>
      (SessionState.Streaming, [RelayOutput.fragment s])
  | SessionState.Streaming, RelayEvent.upstreamEnd =>
      (SessionState.Closed, [RelayOutput.completionEnd])
  | SessionState.Streaming, RelayEvent.upstreamError e =>
      (SessionState.Closed, [RelayOutput.completionError e])
  | SessionState.Streaming, RelayEvent.disconnect => (SessionState.Closed, [])
  | SessionState.Closed, _ => (SessionState.Closed, [])

/-- Modelled from the spec: running the Session Relay over a sequence of
events, accumulating the outbound events in emission order. -/
def relayRun (s : SessionState) : List RelayEvent → SessionState × List RelayOutput
  | [] => (s, [])
  | e :: evs =>
    let stepped := relayStep s e
    let rest := relayRun stepped.1 evs
    (rest.1, stepped.2 ++ rest.2)

/-- Number of active upstream streams a session state represents: one while
Streaming, zero otherwise. -/
def activeStreams : SessionState → ℕ
  | SessionState.Streaming => 1
  | _ => 0

/-- The upstream event that ends a stream: normal exhaustion on success, an
upstream failure carrying its classification otherwise. -/
def terminalEvent : Option RelayError → RelayEvent
  | none => RelayEvent.upstreamEnd
  | some e => RelayEvent.upstreamError e

/-- The terminal outbound event matching a stream outcome: completion-end on
success, completion-error carrying the classification on failure. -/
def terminalOutput : Option RelayError → RelayOutput
  | none => RelayOutput.completionEnd
  | some e => RelayOutput.completionError e

/-- Recognizer for terminal outbound events, either completion-end or
completion-error. -/
def isTerminalOutput : RelayOutput → Bool
  | RelayOutput.completionEnd => true
  | RelayOutput.completionError _ => true
  | _ => false

/-- A chunk whose first choice carries the given delta content. -/
def mkChunk (s : String) : ChatCompletionChunk :=
  { choices := [{ delta := some { content := some s } }] }

/-- A chunk whose first choice carries an absent (undefined) delta content. -/
def mkChunkNone : ChatCompletionChunk :=
  { choices := [{ delta := some { content := none } }] }

/-- The chunk sequence of the testable-properties example, with delta contents
Hello, the empty string, space-world, and undefined, in that order. -/
def exampleChunks : List ChatCompletionChunk :=
  [mkChunk "Hello", mkChunk "", mkChunk " world", mkChunkNone]

/-- Claim C1 counterexample: on the chunk sequence with delta contents Hello,
empty, space-world, undefined, the generator yields one fragment per chunk,
producing the four-element sequence with empty strings in second and fourth
position, not the two-element sequence the claim states. -/
theorem C1_counterexample :
    createDeepSeekCompletion (fun _ _ => Except.ok exampleChunks) (fun _ => none)
        "You are helpful." [] none none
      = Except.ok ["Hello", "", " world", ""]
    ∧ ["Hello", "", " world", ""] ≠ ["Hello", " world"] := by
  constructor
  · rfl
  · decide

/-- Claim C1 (amended): for every chunk sequence delivered by a successful
transport, the generator yields exactly one fragment per chunk in order, namely
the chunk-wise content extraction; a chunk whose optional content chain is
absent yields the empty-string fragment rather than being skipped, and a chunk
whose chain yields a string yields exactly that string (so an empty content
also yields the empty-string fragment). -/
theorem C1_fragment_per_chunk (chunks : List ChatCompletionChunk)
    (env : String → Option String) (systemPrompt : String)
    (messages : List ChatMessage) (params : Option CompletionParams)
    (model : Option String) :
    createDeepSeekCompletion (fun _ _ => Except.ok chunks) env systemPrompt messages params model
      = Except.ok (chunks.map chunkContent)
    ∧ (∀ c : ChatCompletionChunk, contentOpt c = none → chunkContent c = "")
    ∧ (∀ c : ChatCompletionChunk, ∀ s : String, contentOpt c = some s → chunkContent c = s) := by
  refine ⟨rfl, ?_, ?_⟩
  · intro c h
    simp [chunkContent, h]
  · intro c s h
    simp [chunkContent, h]

/-- Claim C1 amended witness at concrete inputs. -/
theorem C1_fragment_per_chunk_witness :
    createDeepSeekCompletion (fun _ _ => Except.ok exampleChunks) (fun _ => none)
        "s" [] none none
      = Except.ok (exampleChunks.map chunkContent)
    ∧ chunkContent mkChunkNone = ""
    ∧ chunkContent (mkChunk "Hello") = "Hello" :=
  ⟨(C1_fragment_per_chunk exampleChunks (fun _ => none) "s" [] none none).1,
   (C1_fragment_per_chunk exampleChunks (fun _ => none) "s" [] none none).2.1 mkChunkNone rfl,
   (C1_fragment_per_chunk exampleChunks (fun _ => none) "s" [] none none).2.2
     (mkChunk "Hello") "Hello" rfl⟩

/-- Claim C2 counterexample: with caller parameters supplying only a
temperature, the request sent upstream carries no max_tokens at all instead of
the default 512, because the source substitutes the whole DEFAULT_PARAMS
object only when the params argument is absent and never merges
field-by-field. -/
theorem C2_counterexample :
    (deepSeekRequest "s" []
        (some { top_p := none, max_tokens := none, stop := none, temperature := some (1/2) })
        none).max_tokens = none
    ∧ (deepSeekRequest "s" []
        (some { top_p := none, max_tokens := none, stop := none, temperature := some (1/2) })
        none).max_tokens ≠ DEFAULT_PARAMS.max_tokens := by
  constructor
  · rfl
  · decide

/-- Claim C2 (amended): parameter resolution is whole-object, not
field-by-field: when the caller supplies a parameter object the request
carries exactly the four fields of that object, absent fields staying absent;
only when the caller supplies no parameter object at all do all four fields
come from DEFAULT_PARAMS. -/
theorem C2_param_resolution (systemPrompt : String) (messages : List ChatMessage)
    (p : CompletionParams) (model : Option String) :
    ((deepSeekRequest systemPrompt messages (some p) model).top_p = p.top_p
      ∧ (deepSeekRequest systemPrompt messages (some p) model).max_tokens = p.max_tokens
      ∧ (deepSeekRequest systemPrompt messages (some p) model).stop = p.stop
      ∧ (deepSeekRequest systemPrompt messages (some p) model).temperature = p.temperature)
    ∧ ((deepSeekRequest systemPrompt messages none model).top_p = DEFAULT_PARAMS.top_p
      ∧ (deepSeekRequest systemPrompt messages none model).max_tokens = DEFAULT_PARAMS.max_tokens
      ∧ (deepSeekRequest systemPrompt messages none model).stop = DEFAULT_PARAMS.stop
      ∧ (deepSeekRequest systemPrompt messages none model).temperature = DEFAULT_PARAMS.temperature) :=
  ⟨⟨rfl, rfl, rfl, rfl⟩, ⟨rfl, rfl, rfl, rfl⟩⟩

/-- Claim C3: in the spec-modelled Session Relay, a request arriving while the
session is Streaming is answered with exactly one SessionBusy rejection and
leaves the state Streaming; the outputs of any continuation are unchanged
apart from that single prepended SessionBusy, so the in-flight stream order is
unaffected; and every reachable state represents at most one active upstream
stream. -/
theorem C3_session_busy (evs : List RelayEvent) :
    relayStep SessionState.Streaming RelayEvent.request
      = (SessionState.Streaming, [RelayOutput.sessionBusy])
    ∧ (relayRun SessionState.Streaming (RelayEvent.request :: evs)).2
      = RelayOutput.sessionBusy :: (relayRun SessionState.Streaming evs).2
    ∧ (relayRun SessionState.Streaming (RelayEvent.request :: evs)).1
      = (relayRun SessionState.Streaming evs).1
    ∧ (∀ st : SessionState, ∀ e : RelayEvent, activeStreams (relayStep st e).1 ≤ 1) := by
  refine ⟨rfl, ?_, ?_, ?_⟩
  · simp [relayRun, relayStep]
  · simp [relayRun, relayStep]
  · intro st e
    cases st <;> cases e <;> simp [relayStep, activeStreams]

/-- Helper: from Streaming, a sequence of fragment events followed by one
terminal upstream event closes the session and emits exactly the fragments in
order followed by the matching terminal output. -/
theorem relayRun_streaming_frags (r : Option RelayError) (frags : List String) :
    relayRun SessionState.Streaming
        (frags.map RelayEvent.upstreamFragment ++ [terminalEvent r])
      = (SessionState.Closed, frags.map RelayOutput.fragment ++ [terminalOutput r]) := by
  induction frags with
  | nil => cases r <;> simp [relayRun, relayStep, terminalEvent, terminalOutput]
  | cons f fs ih => simp [relayRun, relayStep, ih]

/-- Helper: fragment outputs are not terminal, so filtering a fragment list by
the terminal recognizer yields nothing. -/
theorem filter_fragments_nil (frags : List String) :
    (frags.map RelayOutput.fragment).filter isTerminalOutput = [] := by
  induction frags with
  | nil => rfl
  | cons f fs ih => simp [List.filter, isTerminalOutput, ih]

/-- Claim C4: in the spec-modelled Session Relay, a completion request whose
upstream delivers some fragments and then one outcome produces for the client
the fragment events in order followed by exactly one terminal event,
completion-end on success and completion-error on failure; the client never
observes silence, since the output sequence is nonempty and contains exactly
one terminal event. -/
theorem C4_terminal_event (frags : List String) (r : Option RelayError) :
    (relayRun SessionState.Idle
        (RelayEvent.request :: (frags.map RelayEvent.upstreamFragment ++ [terminalEvent r]))).2
      = frags.map RelayOutput.fragment ++ [terminalOutput r]
    ∧ ((relayRun SessionState.Idle
        (RelayEvent.request :: (frags.map RelayEvent.upstreamFragment ++ [terminalEvent r]))).2.filter
        isTerminalOutput) = [terminalOutput r]
    ∧ (relayRun SessionState.Idle
        (RelayEvent.request :: (frags.map RelayEvent.upstreamFragment ++ [terminalEvent r]))).2
      ≠ [] := by
  have h := relayRun_streaming_frags r frags
  have hrun : (relayRun SessionState.Idle
      (RelayEvent.request :: (frags.map RelayEvent.upstreamFragment ++ [terminalEvent r]))).2
      = frags.map RelayOutput.fragment ++ [terminalOutput r] := by
    simp [relayRun, relayStep, h]
  refine ⟨hrun, ?_, ?_⟩
  · rw [hrun, List.filter_append, filter_fragments_nil]
    cases r <;> simp [List.filter, isTerminalOutput, terminalOutput]
  · rw [hrun]
    simp

/-- Claim C5: both adapters send upstream exactly the system-role entry
holding the system prompt followed by the entries of the caller conversation
in their original order. -/
theorem C5_system_prompt_prepended (systemPrompt : String)
    (messages : List ChatMessage) (params : Option CompletionParams)
    (model : Option String) :
    (deepSeekRequest systemPrompt messages params model).messages
      = { role := "system", content := systemPrompt } :: messages
    ∧ (deepInfraRequest systemPrompt messages params model).messages
      = { role := "system", content := systemPrompt } :: messages :=
  ⟨rfl, rfl⟩

/-- Claim C6: the yielded fragment sequence is precisely the chunk-wise image
of the content extraction, so each upstream chunk yields exactly one fragment
(hence at most one), nothing is buffered or coalesced, and fragments appear in
exactly the order of the corresponding chunks; in particular the fragment
count equals the chunk count. -/
theorem C6_order_preserved (chunks : List ChatCompletionChunk)
    (env : String → Option String) (systemPrompt : String)
    (messages : List ChatMessage) (params : Option CompletionParams)
    (model : Option String) :
    createDeepSeekCompletion (fun _ _ => Except.ok chunks) env systemPrompt messages params model
      = Except.ok (chunks.map chunkContent)
    ∧ (chunks.map chunkContent).length = chunks.length := by
  refine ⟨rfl, ?_⟩
  simp

/-- Claim C7: when the transport cannot establish the stream and rejects with
ProviderUnavailable, either adapter fails with that same rejection propagated
to the caller, and the failed call never presents itself as a successful empty
fragment sequence. -/
theorem C7_provider_unavailable (t : Transport) (env : String → Option String)
    (systemPrompt : String) (messages : List ChatMessage)
    (params : Option CompletionParams) (model : Option String)
    (h1 : t (deepseekClient env) (deepSeekRequest systemPrompt messages params model)
      = Except.error ProviderError.ProviderUnavailable)
    (h2 : t (deepinfraClient env) (deepInfraRequest systemPrompt messages params model)
      = Except.error ProviderError.ProviderUnavailable) :
    createDeepSeekCompletion t env systemPrompt messages params model
      = Except.error ProviderError.ProviderUnavailable
    ∧ createDeepInfraCompletion t env systemPrompt messages params model
      = Except.error ProviderError.ProviderUnavailable
    ∧ createDeepSeekCompletion t env systemPrompt messages params model
      ≠ Except.ok [] := by
  refine ⟨?_, ?_, ?_⟩
  · simp [createDeepSeekCompletion, h1]
  · simp [createDeepInfraCompletion, h2]
  · simp [createDeepSeekCompletion, h1]

/-- Claim C7 witness at concrete inputs. -/
theorem C7_provider_unavailable_witness :
    createDeepSeekCompletion (fun _ _ => Except.error ProviderError.ProviderUnavailable)
        (fun _ => none) "s" [] none none
      = Except.error ProviderError.ProviderUnavailable
    ∧ createDeepInfraCompletion (fun _ _ => Except.error ProviderError.ProviderUnavailable)
        (fun _ => none) "s" [] none none
      = Except.error ProviderError.ProviderUnavailable
    ∧ createDeepSeekCompletion (fun _ _ => Except.error ProviderError.ProviderUnavailable)
        (fun _ => none) "s" [] none none ≠ Except.ok [] :=
  C7_provider_unavailable (fun _ _ => Except.error ProviderError.ProviderUnavailable)
    (fun _ => none) "s" [] none none rfl rfl

/-- Claim C8: with no caller-supplied parameters, the request carries exactly
top_p one, max_tokens 512, stop the single newline string, and temperature
seven tenths, identically for both provider adapters. -/
theorem C8_default_params (systemPrompt : String) (messages : List ChatMessage)
    (model : Option String) :
    ((deepSeekRequest systemPrompt messages none model).top_p = some 1
      ∧ (deepSeekRequest systemPrompt messages none model).max_tokens = some 512
      ∧ (deepSeekRequest systemPrompt messages none model).stop = some (StopSpec.str "\n")
      ∧ (deepSeekRequest systemPrompt messages none model).temperature = some (7/10))
    ∧ ((deepInfraRequest systemPrompt messages none model).top_p = some 1
      ∧ (deepInfraRequest systemPrompt messages none model).max_tokens = some 512
      ∧ (deepInfraRequest systemPrompt messages none model).stop = some (StopSpec.str "\n")
      ∧ (deepInfraRequest systemPrompt messages none model).temperature = some (7/10)) :=
  ⟨⟨rfl, rfl, rfl, rfl⟩, ⟨rfl, rfl, rfl, rfl⟩⟩

/-- Claim C9: on identical inputs and an identical upstream chunk sequence the
two adapters yield identical fragment sequences; the requests they build
coincide exactly when a model is passed explicitly, and with the model left to
default they differ only in the provider default model name, the message
sequence and parameter fields agreeing. -/
theorem C9_adapters_equivalent (chunks : List ChatCompletionChunk)
    (env : String → Option String) (systemPrompt : String)
    (messages : List ChatMessage) (params : Option CompletionParams)
    (model : Option String) (m : String) :
    createDeepSeekCompletion (fun _ _ => Except.ok chunks) env systemPrompt messages params model
      = createDeepInfraCompletion (fun _ _ => Except.ok chunks) env systemPrompt messages params model
    ∧ deepSeekRequest systemPrompt messages params (some m)
      = deepInfraRequest systemPrompt messages params (some m)
    ∧ (deepSeekRequest systemPrompt messages params none).model = "deepseek-chat"
    ∧ (deepInfraRequest systemPrompt messages params none).model = "google/gemma-2-9b-it"
    ∧ (deepSeekRequest systemPrompt messages params none).messages
      = (deepInfraRequest systemPrompt messages params none).messages
    ∧ (deepSeekRequest systemPrompt messages params none).temperature
      = (deepInfraRequest systemPrompt messages params none).temperature :=
  ⟨rfl, rfl, rfl, rfl, rfl, rfl⟩

/-- Claim C10: a hello event with payload text makes the connection handler
invoke the acknowledgement callback exactly once, with hello, a space, and the
text concatenated, and this is the only response produced for the event. -/
theorem C10_hello_ack (text : String) :
    handleSocketEvent (SocketEvent.hello text) = ["hello " ++ text]
    ∧ (handleSocketEvent (SocketEvent.hello text)).length = 1 :=
  ⟨rfl, rfl⟩
